import Mathlib

/-!
Verification of the raffle program in `src/program`.

The development shallowly embeds the handlers of
`src/program/src/raffle_processor.rs` together with the helper functions of
`src/program/src/utils.rs` and `src/program/src/vrf.rs` and the account data
model of `src/program/src/raffle_state.rs`.

Modelling conventions:

* `u64` values are `Nat`s; every place the Rust code uses a checked operation
  the embedding tests the `2 ^ 64` bound explicitly, and the one unchecked
  multiplication (`utils::calculate_fee`) is reduced modulo `2 ^ 64`
  (release-mode wrapping semantics).
* `i64` timestamps are `Int`s.
* Addresses (`Pubkey`) are an inductive type: an ordinary 32-byte address is
  a list of bytes, and a program-derived address is represented by its seed
  list and program id.  Distinctness of PDAs with distinct seeds models the
  collision resistance of the SHA-256 based derivation.
* The host ledger commits all of a request's mutations on success and
  discards all of them on failure, so every handler is a pure function from
  the touched state to `Except ProgramError` of the new state: an `error`
  result leaves all state unchanged by construction.
* Cross-program invocations whose outcome is decided outside this repository
  (the Switchboard oracle call, the system program's `create_account`) are
  modelled by explicit boolean/value parameters, with the checks the
  repository's own code performs kept in full.
-/

namespace SolRaffle

/-- The `u64` overflow bound. -/
def U64LIMIT : Nat := 2 ^ 64

/-- Seed bytes of the string `ticket` (raffle_processor.rs line 885). -/
def ticketSeed : List Nat := [116, 105, 99, 107, 101, 116]

/-- Seed bytes of the string `ticket_purchase` (raffle_processor.rs line 370). -/
def ticketPurchaseSeed : List Nat :=
  [116, 105, 99, 107, 101, 116, 95, 112, 117, 114, 99, 104, 97, 115, 101]

/-- A Solana address.  `raw` is an ordinary 32-byte key; `pda` is a program
derived address, identified by its seeds and owning program.  The constructor
distinction models collision resistance of `Pubkey::find_program_address`. -/
inductive Pubkey where
  | raw : List Nat → Pubkey
  | pda : List (List Nat) → Nat → Pubkey
deriving DecidableEq

/-- `Pubkey::default()`: the all-zero 32-byte key. -/
def defaultKey : Pubkey := Pubkey.raw (List.replicate 32 0)

/-- The byte string of a key, used when a key is itself a PDA seed
(`key.as_ref()`). -/
def keyBytes : Pubkey → List Nat
  | Pubkey.raw b => b
  | Pubkey.pda seeds pid => 255 :: pid :: seeds.flatten

/-- `u64::to_le_bytes` (8 little-endian bytes). -/
def u64LeBytes (n : Nat) : List Nat :=
  [n % 256, n / 2 ^ 8 % 256, n / 2 ^ 16 % 256, n / 2 ^ 24 % 256,
   n / 2 ^ 32 % 256, n / 2 ^ 40 % 256, n / 2 ^ 48 % 256, n / 2 ^ 56 % 256]

/-- `Pubkey::find_program_address`: deterministic derivation from seeds and
program id.  The bump byte plays no role in the verified properties. -/
def find_program_address (seeds : List (List Nat)) (programId : Nat) : Pubkey × Nat :=
  (Pubkey.pda seeds programId, 255)

/-- The `ProgramError` variants returned by the embedded handlers, plus
`custom` for errors surfaced from cross-program invocations. -/
inductive ProgramError where
  | invalidArgument
  | invalidAccountData
  | invalidInstructionData
  | missingRequiredSignature
  | incorrectProgramId
  | insufficientFunds
  | accountAlreadyInitialized
  | uninitializedAccount
  | invalidAccountOwner
  | custom : Nat → ProgramError
deriving DecidableEq

/-- `RaffleStatus` from raffle_state.rs. -/
inductive RaffleStatus where
  | active
  | readyForRandomness
  | complete
deriving DecidableEq

/-- The `Raffle` account data (raffle_state.rs). -/
structure Raffle where
  isInitialized : Bool
  authority : Pubkey
  title : List Nat
  endTime : Int
  ticketPrice : Nat
  status : RaffleStatus
  winner : Pubkey
  ticketsSold : Nat
  feeBasisPoints : Nat
  treasury : Pubkey
  vrfAccount : Pubkey
  vrfRequestInProgress : Bool
  nonce : Nat
  raffleIndex : Nat
deriving DecidableEq

/-- The `Config` account data (raffle_state.rs). -/
structure Config where
  isInitialized : Bool
  admin : Pubkey
  treasury : Pubkey
  ticketPrice : Nat
  feeBasisPoints : Nat
  nextRaffleIndex : Nat
deriving DecidableEq

/-- The `TicketPurchase` account data (raffle_state.rs). -/
structure TicketPurchase where
  isInitialized : Bool
  raffle : Pubkey
  purchaser : Pubkey
  ticketCount : Nat
  purchaseTime : Int
deriving DecidableEq

/-- `utils::calculate_fee`: `(amount * percentage as u64) / 100`.  The
multiplication is unchecked `u64` arithmetic, so it is reduced modulo
`2 ^ 64`; the divisor is `100`, not `10000`.  The Rust signature declares
`percentage : u8` while the only call site (raffle_processor.rs line 301)
passes the raffle's `u16` `fee_basis_points`; the embedding takes the
argument as the `Nat` value the call site supplies. -/
def calculate_fee (amount : Nat) (percentage : Nat) : Nat :=
  amount * percentage % U64LIMIT / 100

/-- `vrf::get_random_winner_index`: first 8 bytes of the 32-byte VRF result
are OR-accumulated as `random_value |= byte << (8 * i)` and reduced modulo
`total_tickets`; the source's loop over the 8 bytes is unrolled here. -/
def get_random_winner_index (vrfResult : Fin 32 → Fin 256) (totalTickets : Nat) : Nat :=
  if totalTickets = 0 then 0
  else
    (((((((((0 : Nat)
      ||| (vrfResult 0).val <<< (8 * 0))
      ||| (vrfResult 1).val <<< (8 * 1))
      ||| (vrfResult 2).val <<< (8 * 2))
      ||| (vrfResult 3).val <<< (8 * 3))
      ||| (vrfResult 4).val <<< (8 * 4))
      ||| (vrfResult 5).val <<< (8 * 5))
      ||| (vrfResult 6).val <<< (8 * 6))
      ||| (vrfResult 7).val <<< (8 * 7)) % totalTickets

/-- The 64-bit little-endian integer formed from the first 8 bytes of a VRF
result.  This definition follows the specification's wording and is compared
against `get_random_winner_index`. -/
def leBytesU64 (v : Fin 32 → Fin 256) : Nat :=
  (v 0).val + 2 ^ 8 * (v 1).val + 2 ^ 16 * (v 2).val + 2 ^ 24 * (v 3).val +
  2 ^ 32 * (v 4).val + 2 ^ 40 * (v 5).val + 2 ^ 48 * (v 6).val + 2 ^ 56 * (v 7).val

theorem lor_shiftLeft_eq_add (a b k : Nat) (ha : a < 2 ^ k) :
    a ||| b <<< k = a + 2 ^ k * b := by
  calc a ||| b <<< k = a ||| b * 2 ^ k := by rw [Nat.shiftLeft_eq]
    _ = b * 2 ^ k ||| a := Nat.lor_comm _ _
    _ = 2 ^ k * b ||| a := by rw [Nat.mul_comm]
    _ = 2 ^ k * b + a := (Nat.mul_add_lt_is_or ha b).symm
    _ = a + 2 ^ k * b := Nat.add_comm _ _

theorem acc_bound (a b k : Nat) (ha : a < 2 ^ k) (hb : b < 2 ^ 8) :
    a + 2 ^ k * b < 2 ^ (k + 8) := by
  have h : (2 : Nat) ^ (k + 8) = 2 ^ k * 2 ^ 8 := by rw [pow_add]
  calc a + 2 ^ k * b < 2 ^ k + 2 ^ k * b := by omega
    _ = 2 ^ k * (1 + b) := by ring
    _ ≤ 2 ^ k * 2 ^ 8 := Nat.mul_le_mul_left _ (by omega)
    _ = 2 ^ (k + 8) := h.symm

theorem randomValue_eq_leBytesU64 (v : Fin 32 → Fin 256) :
    ((((((((0 : Nat)
      ||| (v 0).val <<< (8 * 0))
      ||| (v 1).val <<< (8 * 1))
      ||| (v 2).val <<< (8 * 2))
      ||| (v 3).val <<< (8 * 3))
      ||| (v 4).val <<< (8 * 4))
      ||| (v 5).val <<< (8 * 5))
      ||| (v 6).val <<< (8 * 6))
      ||| (v 7).val <<< (8 * 7) = leBytesU64 v := by
  have hb : ∀ i : Fin 32, (v i).val < 2 ^ 8 := fun i => (v i).isLt
  have h0 : (0 : Nat) ||| (v 0).val <<< (8 * 0) = (v 0).val := by simp
  rw [h0]
  have b0 : (v 0).val < 2 ^ 8 := hb 0
  rw [lor_shiftLeft_eq_add _ _ _ b0]
  have b1 : (v 0).val + 2 ^ 8 * (v 1).val < 2 ^ 16 :=
    acc_bound _ _ 8 b0 (hb 1)
  rw [lor_shiftLeft_eq_add _ _ _ b1]
  have b2 : (v 0).val + 2 ^ 8 * (v 1).val + 2 ^ 16 * (v 2).val < 2 ^ 24 :=
    acc_bound _ _ 16 b1 (hb 2)
  rw [lor_shiftLeft_eq_add _ _ _ b2]
  have b3 : (v 0).val + 2 ^ 8 * (v 1).val + 2 ^ 16 * (v 2).val +
      2 ^ 24 * (v 3).val < 2 ^ 32 := acc_bound _ _ 24 b2 (hb 3)
  rw [lor_shiftLeft_eq_add _ _ _ b3]
  have b4 : (v 0).val + 2 ^ 8 * (v 1).val + 2 ^ 16 * (v 2).val +
      2 ^ 24 * (v 3).val + 2 ^ 32 * (v 4).val < 2 ^ 40 :=
    acc_bound _ _ 32 b3 (hb 4)
  rw [lor_shiftLeft_eq_add _ _ _ b4]
  have b5 : (v 0).val + 2 ^ 8 * (v 1).val + 2 ^ 16 * (v 2).val +
      2 ^ 24 * (v 3).val + 2 ^ 32 * (v 4).val + 2 ^ 40 * (v 5).val < 2 ^ 48 :=
    acc_bound _ _ 40 b4 (hb 5)
  rw [lor_shiftLeft_eq_add _ _ _ b5]
  have b6 : (v 0).val + 2 ^ 8 * (v 1).val + 2 ^ 16 * (v 2).val +
      2 ^ 24 * (v 3).val + 2 ^ 32 * (v 4).val + 2 ^ 40 * (v 5).val +
      2 ^ 48 * (v 6).val < 2 ^ 56 := acc_bound _ _ 48 b5 (hb 6)
  rw [lor_shiftLeft_eq_add _ _ _ b6]
  rfl

/-- The caller-visible data of a Switchboard VRF account, as consumed by
`vrf::verify_vrf_result`: its owner check, its `has_result` flag and its
32-byte result buffer.  The oracle's internals live outside this repository. -/
structure VrfAccount where
  ownedBySwitchboard : Bool
  hasResult : Bool
  result : Fin 32 → Fin 256

/-- `vrf::verify_vrf_result`: reject a VRF account not owned by Switchboard,
then one without a verified result, otherwise return the 32 result bytes. -/
def verify_vrf_result (vrf : VrfAccount) : Except ProgramError (Fin 32 → Fin 256) :=
  if vrf.ownedBySwitchboard = false then Except.error ProgramError.invalidAccountOwner
  else if vrf.hasResult = false then Except.error ProgramError.invalidAccountData
  else Except.ok vrf.result

/-- `vrf::request_vrf_randomness`: the checks the repository's code performs
before invoking the Switchboard program; the cross-program invocation's own
outcome is the external `switchboardInvokeOk` parameter. -/
def request_vrf_randomness (payerIsSigner authorityIsSigner : Bool)
    (vrfOwnedBySwitchboard : Bool) (queueAuthority authorityKey : Pubkey)
    (switchboardInvokeOk : Bool) : Except ProgramError Unit :=
  if payerIsSigner = false then Except.error ProgramError.missingRequiredSignature
  else if authorityIsSigner = false then Except.error ProgramError.missingRequiredSignature
  else if vrfOwnedBySwitchboard = false then Except.error ProgramError.invalidAccountOwner
  else if queueAuthority ≠ authorityKey then Except.error ProgramError.invalidArgument
  else if switchboardInvokeOk = false then Except.error (ProgramError.custom 0)
  else Except.ok ()

/-- The `?` operator on fallible calls: propagate an error, continue on
success. -/
def andThen {α β : Type} (x : Except ProgramError α) (f : α → Except ProgramError β) :
    Except ProgramError β :=
  match x with
  | Except.error e => Except.error e
  | Except.ok a => f a

theorem andThen_ok {α β : Type} (a : α) (f : α → Except ProgramError β) :
    andThen (Except.ok a) f = f a := rfl

theorem andThen_error {α β : Type} (e : ProgramError) (f : α → Except ProgramError β) :
    andThen (Except.error e) f = Except.error e := rfl

/-- Case analysis on an optional value. -/
def optCase {α β : Type} (x : Option α) (fSome : α → β) (fNone : β) : β :=
  match x with
  | some a => fSome a
  | none => fNone

theorem optCase_some {α β : Type} (a : α) (fS : α → β) (fN : β) :
    optCase (some a) fS fN = fS a := rfl

theorem optCase_none {α β : Type} (fS : α → β) (fN : β) :
    optCase none fS fN = fN := rfl

/-- The state one raffle's requests touch: the raffle account (address,
ownership, data), the program-owned `TicketPurchase` accounts that reference
it (an association list from account address to record data), and the lamport
balances of all addresses. -/
structure World where
  raffleKey : Pubkey
  raffleOwnedByProgram : Bool
  raffle : Raffle
  store : List (Pubkey × TicketPurchase)
  balances : Pubkey → Nat

/-- Point update of a balance map. -/
def setBal (b : Pubkey → Nat) (k : Pubkey) (v : Nat) : Pubkey → Nat :=
  fun x => if x = k then v else b x

/-- The system program's transfer primitive: fails when the source balance is
insufficient, otherwise debits the source and credits the destination. -/
def transferLamports (b : Pubkey → Nat) (src dst : Pubkey) (amount : Nat) :
    Except ProgramError (Pubkey → Nat) :=
  if b src < amount then Except.error ProgramError.insufficientFunds
  else
    Except.ok (setBal (setBal b src (b src - amount)) dst
      (setBal b src (b src - amount) dst + amount))

/-- Lookup of a program-owned `TicketPurchase` account at an address. -/
def storeLookup (k : Pubkey) : List (Pubkey × TicketPurchase) → Option TicketPurchase
  | [] => none
  | kv :: rest => if kv.1 = k then some kv.2 else storeLookup k rest

/-- Overwrite the record stored at an address. -/
def storeUpdate (k : Pubkey) (v : TicketPurchase) :
    List (Pubkey × TicketPurchase) → List (Pubkey × TicketPurchase)
  | [] => []
  | kv :: rest =>
    if kv.1 = k then (kv.1, v) :: storeUpdate k v rest
    else kv :: storeUpdate k v rest

/-- `Processor::process_purchase_tickets` (raffle_processor.rs lines
237-485).  Checks in source order: zero ticket count, purchaser signature,
raffle ownership, `Raffle::unpack` (initialization), Active status, ambient
time strictly before `end_time`, checked total-price multiplication,
purchaser funds, fee computation via `utils::calculate_fee`, checked pool
subtraction, fee transfer (skipped when zero), pool transfer, then either
update of an existing matching `TicketPurchase` record or creation of a new
one at the derived `ticket_purchase` PDA (rent paid by the purchaser, and
`create_account` fails on an address that already holds lamports), and
finally the checked `tickets_sold` increment. -/
def process_purchase_tickets (w : World) (programId : Nat)
    (purchaserKey : Pubkey) (purchaserIsSigner : Bool)
    (ticketPurchaseKey treasuryKey : Pubkey)
    (currentTime : Int) (rentLamports : Nat)
    (ticketCount : Nat) : Except ProgramError World :=
  if ticketCount = 0 then Except.error ProgramError.invalidArgument
  else if purchaserIsSigner = false then Except.error ProgramError.missingRequiredSignature
  else if w.raffleOwnedByProgram = false then Except.error ProgramError.incorrectProgramId
  else if w.raffle.isInitialized = false then Except.error ProgramError.uninitializedAccount
  else if w.raffle.status ≠ RaffleStatus.active then Except.error ProgramError.invalidAccountData
  else if w.raffle.endTime ≤ currentTime then Except.error ProgramError.invalidArgument
  else if U64LIMIT ≤ ticketCount * w.raffle.ticketPrice then Except.error ProgramError.invalidArgument
  else if w.balances purchaserKey < ticketCount * w.raffle.ticketPrice then
    Except.error ProgramError.insufficientFunds
  else if ticketCount * w.raffle.ticketPrice
      < calculate_fee (ticketCount * w.raffle.ticketPrice) w.raffle.feeBasisPoints then
    Except.error ProgramError.invalidArgument
  else
    andThen (if calculate_fee (ticketCount * w.raffle.ticketPrice) w.raffle.feeBasisPoints = 0
             then Except.ok w.balances
             else transferLamports w.balances purchaserKey treasuryKey
               (calculate_fee (ticketCount * w.raffle.ticketPrice) w.raffle.feeBasisPoints))
      (fun bal1 =>
    andThen (transferLamports bal1 purchaserKey w.raffleKey
        (ticketCount * w.raffle.ticketPrice
          - calculate_fee (ticketCount * w.raffle.ticketPrice) w.raffle.feeBasisPoints))
      (fun bal2 =>
    optCase (storeLookup ticketPurchaseKey w.store)
      (fun ticketData =>
        if ticketData.isInitialized = false then Except.error ProgramError.uninitializedAccount
        else if ticketData.raffle ≠ w.raffleKey ∨ ticketData.purchaser ≠ purchaserKey then
          Except.error ProgramError.invalidAccountData
        else if U64LIMIT ≤ ticketData.ticketCount + ticketCount then
          Except.error ProgramError.invalidArgument
        else if U64LIMIT ≤ w.raffle.ticketsSold + ticketCount then
          Except.error ProgramError.invalidArgument
        else
          Except.ok { w with
            raffle := { w.raffle with ticketsSold := w.raffle.ticketsSold + ticketCount },
            store := storeUpdate ticketPurchaseKey
              { ticketData with
                ticketCount := ticketData.ticketCount + ticketCount,
                purchaseTime := currentTime } w.store,
            balances := bal2 })
      (if (find_program_address
            [ticketPurchaseSeed, keyBytes w.raffleKey, keyBytes purchaserKey]
            programId).1 ≠ ticketPurchaseKey then
        Except.error ProgramError.invalidArgument
      else if 0 < bal2 ticketPurchaseKey then Except.error (ProgramError.custom 1)
      else
        andThen (transferLamports bal2 purchaserKey ticketPurchaseKey rentLamports)
          (fun bal3 =>
          if U64LIMIT ≤ w.raffle.ticketsSold + ticketCount then
            Except.error ProgramError.invalidArgument
          else
            Except.ok { w with
              raffle := { w.raffle with ticketsSold := w.raffle.ticketsSold + ticketCount },
              store := (ticketPurchaseKey,
                { isInitialized := true, raffle := w.raffleKey,
                  purchaser := purchaserKey, ticketCount := ticketCount,
                  purchaseTime := currentTime }) :: w.store,
              balances := bal3 }))))

/-- `Processor::process_request_randomness` (raffle_processor.rs lines
730-813).  Checks in source order: initiator signature, payer signature,
raffle ownership, `Raffle::unpack`, Active status, ambient time at or past
`end_time`, nonzero `tickets_sold`; then the Switchboard request, then the
raffle's `vrf_account` and `vrf_request_in_progress` are set.  No check of an
already-in-progress request appears anywhere. -/
def process_request_randomness (w : World)
    (authorityKey : Pubkey) (authorityIsSigner : Bool)
    (vrfAccountKey : Pubkey) (vrfOwnedBySwitchboard : Bool)
    (payerIsSigner : Bool) (queueAuthority : Pubkey)
    (switchboardInvokeOk : Bool) (currentTime : Int) : Except ProgramError World :=
  if authorityIsSigner = false then Except.error ProgramError.missingRequiredSignature
  else if payerIsSigner = false then Except.error ProgramError.missingRequiredSignature
  else if w.raffleOwnedByProgram = false then Except.error ProgramError.incorrectProgramId
  else if w.raffle.isInitialized = false then Except.error ProgramError.uninitializedAccount
  else if w.raffle.status ≠ RaffleStatus.active then Except.error ProgramError.invalidAccountData
  else if currentTime < w.raffle.endTime then Except.error ProgramError.invalidAccountData
  else if w.raffle.ticketsSold = 0 then Except.error ProgramError.invalidAccountData
  else
    andThen (request_vrf_randomness payerIsSigner authorityIsSigner vrfOwnedBySwitchboard
        queueAuthority authorityKey switchboardInvokeOk)
      (fun _ =>
      Except.ok { w with
        raffle := { w.raffle with
          vrfAccount := vrfAccountKey, vrfRequestInProgress := true } })

/-- `Processor::process_complete_raffle_with_vrf` (raffle_processor.rs lines
817-913).  Checks in source order: initiator signature, raffle ownership,
`Raffle::unpack`, Active status, in-progress VRF request, recorded VRF
account match, ambient time at or past `end_time`; then the verified VRF
result yields the winner index, the supplied winner account must equal the
PDA derived from seeds `ticket`/raffle/index, the raffle is marked Complete
with the winner recorded and the flag cleared, and the raffle account's
entire lamport balance is moved to the winner account (checked add). -/
def process_complete_raffle_with_vrf (w : World) (programId : Nat)
    (authorityIsSigner : Bool) (vrfAccountKey : Pubkey) (vrf : VrfAccount)
    (winnerKey : Pubkey) (currentTime : Int) : Except ProgramError World :=
  if authorityIsSigner = false then Except.error ProgramError.missingRequiredSignature
  else if w.raffleOwnedByProgram = false then Except.error ProgramError.incorrectProgramId
  else if w.raffle.isInitialized = false then Except.error ProgramError.uninitializedAccount
  else if w.raffle.status ≠ RaffleStatus.active then Except.error ProgramError.invalidArgument
  else if w.raffle.vrfRequestInProgress = false then Except.error ProgramError.invalidArgument
  else if w.raffle.vrfAccount ≠ vrfAccountKey then Except.error ProgramError.invalidArgument
  else if currentTime < w.raffle.endTime then Except.error ProgramError.invalidArgument
  else
    andThen (verify_vrf_result vrf) (fun vrfResult =>
      if winnerKey ≠ (find_program_address
            [ticketSeed, keyBytes w.raffleKey,
             u64LeBytes (get_random_winner_index vrfResult w.raffle.ticketsSold)]
            programId).1 then
        Except.error ProgramError.invalidArgument
      else if U64LIMIT ≤ setBal w.balances w.raffleKey 0 winnerKey + w.balances w.raffleKey then
        Except.error ProgramError.invalidArgument
      else
        Except.ok { w with
          raffle := { w.raffle with
            winner := winnerKey, status := RaffleStatus.complete,
            vrfRequestInProgress := false },
          balances := setBal (setBal w.balances w.raffleKey 0) winnerKey
            (setBal w.balances w.raffleKey 0 winnerKey + w.balances w.raffleKey) })

/-- `Processor::process_update_fee_percentage` (raffle_processor.rs lines
682-726).  Checks in source order: config ownership, `Config::unpack`, admin
key match, admin signature, the `10000` basis-point cap; then the fee is
stored. -/
def process_update_fee_percentage (config : Config) (configOwnedByProgram : Bool)
    (adminKey : Pubkey) (adminIsSigner : Bool) (newFeeBasisPoints : Nat) :
    Except ProgramError Config :=
  if configOwnedByProgram = false then Except.error ProgramError.incorrectProgramId
  else if config.isInitialized = false then Except.error ProgramError.uninitializedAccount
  else if config.admin ≠ adminKey then Except.error ProgramError.invalidAccountData
  else if adminIsSigner = false then Except.error ProgramError.missingRequiredSignature
  else if 10000 < newFeeBasisPoints then Except.error ProgramError.invalidArgument
  else Except.ok { config with feeBasisPoints := newFeeBasisPoints }

/-- The raffle record produced by `process_initialize_raffle`
(raffle_processor.rs lines 215-228): snapshots price, fee and treasury from
the config, status Active, no winner, no tickets sold, no VRF request.  The
source code omits the `nonce` and `raffle_index` fields declared in
raffle_state.rs; they are taken as parameters here. -/
def initRaffle (authorityKey : Pubkey) (title : List Nat) (currentTime : Int)
    (duration : Nat) (config : Config) (nonce raffleIndex : Nat) : Raffle :=
  { isInitialized := true, authority := authorityKey, title := title,
    endTime := currentTime + (duration : Int),
    ticketPrice := config.ticketPrice, status := RaffleStatus.active,
    winner := defaultKey, ticketsSold := 0,
    feeBasisPoints := config.feeBasisPoints, treasury := config.treasury,
    vrfAccount := defaultKey, vrfRequestInProgress := false,
    nonce := nonce, raffleIndex := raffleIndex }

/-- States of one raffle reachable from its creation through the embedded
handlers, for a fixed program id. -/
inductive Reachable (programId : Nat) : World → Prop where
  | init (raffleKey authorityKey : Pubkey) (title : List Nat) (currentTime : Int)
      (duration : Nat) (config : Config) (nonce raffleIndex : Nat)
      (balances : Pubkey → Nat) :
      Reachable programId
        { raffleKey := raffleKey, raffleOwnedByProgram := true,
          raffle := initRaffle authorityKey title currentTime duration config
            nonce raffleIndex,
          store := [], balances := balances }
  | purchase {w w' : World} (purchaserKey : Pubkey) (purchaserIsSigner : Bool)
      (ticketPurchaseKey treasuryKey : Pubkey) (currentTime : Int)
      (rentLamports ticketCount : Nat)
      (h : Reachable programId w)
      (hstep : process_purchase_tickets w programId purchaserKey purchaserIsSigner
        ticketPurchaseKey treasuryKey currentTime rentLamports ticketCount
        = Except.ok w') :
      Reachable programId w'
  | request {w w' : World} (authorityKey : Pubkey) (authorityIsSigner : Bool)
      (vrfAccountKey : Pubkey) (vrfOwnedBySwitchboard payerIsSigner : Bool)
      (queueAuthority : Pubkey) (switchboardInvokeOk : Bool) (currentTime : Int)
      (h : Reachable programId w)
      (hstep : process_request_randomness w authorityKey authorityIsSigner
        vrfAccountKey vrfOwnedBySwitchboard payerIsSigner queueAuthority
        switchboardInvokeOk currentTime = Except.ok w') :
      Reachable programId w'
  | completeVrf {w w' : World} (authorityIsSigner : Bool) (vrfAccountKey : Pubkey)
      (vrf : VrfAccount) (winnerKey : Pubkey) (currentTime : Int)
      (h : Reachable programId w)
      (hstep : process_complete_raffle_with_vrf w programId authorityIsSigner
        vrfAccountKey vrf winnerKey currentTime = Except.ok w') :
      Reachable programId w'

/-- Sum of `ticket_count` over the stored allocations that reference a given
raffle. -/
def sumTicketsFor (raffleKey : Pubkey) (store : List (Pubkey × TicketPurchase)) : Nat :=
  (store.map (fun kv => if kv.2.raffle = raffleKey then kv.2.ticketCount else 0)).sum

theorem storeLookup_none_not_mem (k : Pubkey) (s : List (Pubkey × TicketPurchase))
    (h : storeLookup k s = none) : k ∉ s.map Prod.fst := by
  induction s with
  | nil => simp
  | cons kv rest ih =>
    simp only [storeLookup] at h
    split at h
    · exact Option.noConfusion h
    · next hne =>
      simp only [List.map_cons, List.mem_cons]
      intro hmem
      rcases hmem with h1 | h2
      · exact hne h1.symm
      · exact ih h h2

theorem storeLookup_mem (k : Pubkey) (s : List (Pubkey × TicketPurchase))
    (td : TicketPurchase) (h : storeLookup k s = some td) : (k, td) ∈ s := by
  induction s with
  | nil => exact Option.noConfusion h
  | cons kv rest ih =>
    simp only [storeLookup] at h
    split at h
    · next heq =>
      injection h with h
      subst h; subst heq
      exact List.mem_cons_self _ _
    · exact List.mem_cons_of_mem _ (ih h)

theorem storeUpdate_keys (k : Pubkey) (v : TicketPurchase)
    (s : List (Pubkey × TicketPurchase)) :
    (storeUpdate k v s).map Prod.fst = s.map Prod.fst := by
  induction s with
  | nil => rfl
  | cons kv rest ih =>
    simp only [storeUpdate]
    split
    · next heq => simp [ih, heq]
    · simp [ih]

theorem storeUpdate_not_mem (k : Pubkey) (v : TicketPurchase)
    (s : List (Pubkey × TicketPurchase)) (h : k ∉ s.map Prod.fst) :
    storeUpdate k v s = s := by
  induction s with
  | nil => rfl
  | cons kv rest ih =>
    simp only [List.map_cons, List.mem_cons] at h
    push_neg at h
    simp only [storeUpdate]
    split
    · next heq => exact absurd heq.symm h.1
    · rw [ih h.2]

theorem storeUpdate_mem (Q : Pubkey × TicketPurchase → Prop) (k : Pubkey)
    (nd : TicketPurchase) (s : List (Pubkey × TicketPurchase))
    (hs : ∀ kv ∈ s, Q kv) (hnd : Q (k, nd)) :
    ∀ kv ∈ storeUpdate k nd s, Q kv := by
  induction s with
  | nil => intro kv hkv; exact absurd hkv (List.not_mem_nil _)
  | cons kv0 rest ih =>
    intro kv hkv
    have hs0 : Q kv0 := hs kv0 (List.mem_cons_self _ _)
    have hsr : ∀ x ∈ rest, Q x := fun x hx => hs x (List.mem_cons_of_mem _ hx)
    simp only [storeUpdate] at hkv
    split at hkv
    · next heq =>
      rcases List.mem_cons.mp hkv with h1 | h2
      · rw [h1, heq]; exact hnd
      · exact ih hsr kv h2
    · rcases List.mem_cons.mp hkv with h1 | h2
      · rw [h1]; exact hs0
      · exact ih hsr kv h2

theorem sumTicketsFor_cons (rk : Pubkey) (kv : Pubkey × TicketPurchase)
    (s : List (Pubkey × TicketPurchase)) :
    sumTicketsFor rk (kv :: s)
      = (if kv.2.raffle = rk then kv.2.ticketCount else 0) + sumTicketsFor rk s := by
  simp [sumTicketsFor]

theorem sumTicketsFor_update (rk k : Pubkey) (s : List (Pubkey × TicketPurchase))
    (td nd : TicketPurchase)
    (hnd : (s.map Prod.fst).Nodup) (hlk : storeLookup k s = some td) :
    sumTicketsFor rk (storeUpdate k nd s)
        + (if td.raffle = rk then td.ticketCount else 0)
      = sumTicketsFor rk s + (if nd.raffle = rk then nd.ticketCount else 0) := by
  induction s with
  | nil => exact Option.noConfusion hlk
  | cons kv rest ih =>
    simp only [List.map_cons, List.nodup_cons] at hnd
    simp only [storeLookup] at hlk
    simp only [storeUpdate]
    split at hlk
    · next heq =>
      injection hlk with hlk
      subst hlk
      rw [if_pos heq, storeUpdate_not_mem k nd rest (heq ▸ hnd.1)]
      rw [sumTicketsFor_cons, sumTicketsFor_cons]
      dsimp only
      omega
    · next hne =>
      rw [if_neg hne]
      rw [sumTicketsFor_cons, sumTicketsFor_cons]
      have h := ih hnd.2 hlk
      omega

/-- Structural facts maintained at every reachable state: allocation account
addresses are distinct, every stored allocation references this raffle and
sits at the `ticket_purchase` PDA of some purchaser, and the allocation
ticket counts sum to `tickets_sold`. -/
def WorldInv (programId : Nat) (w : World) : Prop :=
  (w.store.map Prod.fst).Nodup ∧
  (∀ kv ∈ w.store, kv.2.raffle = w.raffleKey ∧
    ∃ p, kv.1 = (find_program_address
      [ticketPurchaseSeed, keyBytes w.raffleKey, keyBytes p] programId).1) ∧
  sumTicketsFor w.raffleKey w.store = w.raffle.ticketsSold

theorem purchase_ok_effects (w w' : World) (pid : Nat) (pk : Pubkey) (psig : Bool)
    (tpk trk : Pubkey) (t : Int) (rent c : Nat)
    (hinv : WorldInv pid w)
    (hstep : process_purchase_tickets w pid pk psig tpk trk t rent c = Except.ok w') :
    WorldInv pid w' ∧ w'.raffleKey = w.raffleKey ∧
    w'.raffle.ticketsSold = w.raffle.ticketsSold + c := by
  obtain ⟨hnd, hmem, hsum⟩ := hinv
  unfold process_purchase_tickets at hstep
  by_cases h1 : c = 0
  · rw [if_pos h1] at hstep
    exact Except.noConfusion hstep
  rw [if_neg h1] at hstep
  by_cases h2 : psig = false
  · rw [if_pos h2] at hstep
    exact Except.noConfusion hstep
  rw [if_neg h2] at hstep
  by_cases h3 : w.raffleOwnedByProgram = false
  · rw [if_pos h3] at hstep
    exact Except.noConfusion hstep
  rw [if_neg h3] at hstep
  by_cases h4 : w.raffle.isInitialized = false
  · rw [if_pos h4] at hstep
    exact Except.noConfusion hstep
  rw [if_neg h4] at hstep
  by_cases h5 : w.raffle.status ≠ RaffleStatus.active
  · rw [if_pos h5] at hstep
    exact Except.noConfusion hstep
  rw [if_neg h5] at hstep
  by_cases h6 : w.raffle.endTime ≤ t
  · rw [if_pos h6] at hstep
    exact Except.noConfusion hstep
  rw [if_neg h6] at hstep
  by_cases h7 : U64LIMIT ≤ c * w.raffle.ticketPrice
  · rw [if_pos h7] at hstep
    exact Except.noConfusion hstep
  rw [if_neg h7] at hstep
  by_cases h8 : w.balances pk < c * w.raffle.ticketPrice
  · rw [if_pos h8] at hstep
    exact Except.noConfusion hstep
  rw [if_neg h8] at hstep
  by_cases h9 : c * w.raffle.ticketPrice
      < calculate_fee (c * w.raffle.ticketPrice) w.raffle.feeBasisPoints
  · rw [if_pos h9] at hstep
    exact Except.noConfusion hstep
  rw [if_neg h9] at hstep
  cases htr1 : (if calculate_fee (c * w.raffle.ticketPrice) w.raffle.feeBasisPoints = 0
      then Except.ok w.balances
      else transferLamports w.balances pk trk
        (calculate_fee (c * w.raffle.ticketPrice) w.raffle.feeBasisPoints)) with
  | error e =>
    rw [htr1, andThen_error] at hstep
    exact Except.noConfusion hstep
  | ok bal1 =>
  rw [htr1, andThen_ok] at hstep
  cases htr2 : transferLamports bal1 pk w.raffleKey
      (c * w.raffle.ticketPrice
        - calculate_fee (c * w.raffle.ticketPrice) w.raffle.feeBasisPoints) with
  | error e =>
    rw [htr2, andThen_error] at hstep
    exact Except.noConfusion hstep
  | ok bal2 =>
  rw [htr2, andThen_ok] at hstep
  cases hlk : storeLookup tpk w.store with
  | some td =>
    rw [hlk, optCase_some] at hstep
    by_cases h10 : td.isInitialized = false
    · rw [if_pos h10] at hstep
      exact Except.noConfusion hstep
    rw [if_neg h10] at hstep
    by_cases h11 : td.raffle ≠ w.raffleKey ∨ td.purchaser ≠ pk
    · rw [if_pos h11] at hstep
      exact Except.noConfusion hstep
    rw [if_neg h11] at hstep
    by_cases h12 : U64LIMIT ≤ td.ticketCount + c
    · rw [if_pos h12] at hstep
      exact Except.noConfusion hstep
    rw [if_neg h12] at hstep
    by_cases h13 : U64LIMIT ≤ w.raffle.ticketsSold + c
    · rw [if_pos h13] at hstep
      exact Except.noConfusion hstep
    rw [if_neg h13] at hstep
    injection hstep with hstep
    subst hstep
    have htdmem : (tpk, td) ∈ w.store := storeLookup_mem _ _ _ hlk
    have htdfacts := hmem _ htdmem
    refine ⟨⟨?_, ?_, ?_⟩, rfl, rfl⟩
    · dsimp only
      rw [storeUpdate_keys]
      exact hnd
    · dsimp only
      refine storeUpdate_mem _ tpk _ w.store hmem ?_
      exact ⟨htdfacts.1, htdfacts.2⟩
    · dsimp only
      have hupd := sumTicketsFor_update w.raffleKey tpk w.store td
        { td with ticketCount := td.ticketCount + c, purchaseTime := t } hnd hlk
      dsimp only at hupd
      rw [if_pos htdfacts.1] at hupd
      rw [if_pos htdfacts.1] at hupd
      omega
  | none =>
    rw [hlk, optCase_none] at hstep
    by_cases h10 : (find_program_address
        [ticketPurchaseSeed, keyBytes w.raffleKey, keyBytes pk] pid).1 ≠ tpk
    · rw [if_pos h10] at hstep
      exact Except.noConfusion hstep
    rw [if_neg h10] at hstep
    push_neg at h10
    by_cases h11 : 0 < bal2 tpk
    · rw [if_pos h11] at hstep
      exact Except.noConfusion hstep
    rw [if_neg h11] at hstep
    cases htr3 : transferLamports bal2 pk tpk rent with
    | error e =>
      rw [htr3, andThen_error] at hstep
      exact Except.noConfusion hstep
    | ok bal3 =>
    rw [htr3, andThen_ok] at hstep
    by_cases h12 : U64LIMIT ≤ w.raffle.ticketsSold + c
    · rw [if_pos h12] at hstep
      exact Except.noConfusion hstep
    rw [if_neg h12] at hstep
    injection hstep with hstep
    subst hstep
    refine ⟨⟨?_, ?_, ?_⟩, rfl, rfl⟩
    · dsimp only
      rw [List.map_cons, List.nodup_cons]
      exact ⟨storeLookup_none_not_mem _ _ hlk, hnd⟩
    · dsimp only
      intro kv hkv
      rcases List.mem_cons.mp hkv with hk1 | hk2
      · subst hk1
        exact ⟨rfl, pk, h10.symm⟩
      · exact hmem _ hk2
    · dsimp only
      rw [sumTicketsFor_cons]
      dsimp only
      rw [if_pos rfl]
      omega

theorem request_ok_shape (w : World) (ak : Pubkey) (asig : Bool) (vk : Pubkey)
    (vown psig : Bool) (qa : Pubkey) (sok : Bool) (t : Int) (w' : World)
    (hstep : process_request_randomness w ak asig vk vown psig qa sok t = Except.ok w') :
    w' = { w with raffle := { w.raffle with
      vrfAccount := vk, vrfRequestInProgress := true } } := by
  unfold process_request_randomness at hstep
  by_cases h1 : asig = false
  · rw [if_pos h1] at hstep
    exact Except.noConfusion hstep
  rw [if_neg h1] at hstep
  by_cases h2 : psig = false
  · rw [if_pos h2] at hstep
    exact Except.noConfusion hstep
  rw [if_neg h2] at hstep
  by_cases h3 : w.raffleOwnedByProgram = false
  · rw [if_pos h3] at hstep
    exact Except.noConfusion hstep
  rw [if_neg h3] at hstep
  by_cases h4 : w.raffle.isInitialized = false
  · rw [if_pos h4] at hstep
    exact Except.noConfusion hstep
  rw [if_neg h4] at hstep
  by_cases h5 : w.raffle.status ≠ RaffleStatus.active
  · rw [if_pos h5] at hstep
    exact Except.noConfusion hstep
  rw [if_neg h5] at hstep
  by_cases h6 : t < w.raffle.endTime
  · rw [if_pos h6] at hstep
    exact Except.noConfusion hstep
  rw [if_neg h6] at hstep
  by_cases h7 : w.raffle.ticketsSold = 0
  · rw [if_pos h7] at hstep
    exact Except.noConfusion hstep
  rw [if_neg h7] at hstep
  cases hreq : request_vrf_randomness psig asig vown qa ak sok with
  | error e =>
    rw [hreq, andThen_error] at hstep
    exact Except.noConfusion hstep
  | ok u =>
    rw [hreq, andThen_ok] at hstep
    injection hstep with hstep
    exact hstep.symm

theorem complete_ok_shape (w : World) (pid : Nat) (asig : Bool) (vk : Pubkey)
    (vrf : VrfAccount) (wk : Pubkey) (t : Int) (w' : World)
    (hstep : process_complete_raffle_with_vrf w pid asig vk vrf wk t = Except.ok w') :
    w' = { w with
      raffle := { w.raffle with
        winner := wk, status := RaffleStatus.complete, vrfRequestInProgress := false },
      balances := setBal (setBal w.balances w.raffleKey 0) wk
        (setBal w.balances w.raffleKey 0 wk + w.balances w.raffleKey) } := by
  unfold process_complete_raffle_with_vrf at hstep
  by_cases h1 : asig = false
  · rw [if_pos h1] at hstep
    exact Except.noConfusion hstep
  rw [if_neg h1] at hstep
  by_cases h2 : w.raffleOwnedByProgram = false
  · rw [if_pos h2] at hstep
    exact Except.noConfusion hstep
  rw [if_neg h2] at hstep
  by_cases h3 : w.raffle.isInitialized = false
  · rw [if_pos h3] at hstep
    exact Except.noConfusion hstep
  rw [if_neg h3] at hstep
  by_cases h4 : w.raffle.status ≠ RaffleStatus.active
  · rw [if_pos h4] at hstep
    exact Except.noConfusion hstep
  rw [if_neg h4] at hstep
  by_cases h5 : w.raffle.vrfRequestInProgress = false
  · rw [if_pos h5] at hstep
    exact Except.noConfusion hstep
  rw [if_neg h5] at hstep
  by_cases h6 : w.raffle.vrfAccount ≠ vk
  · rw [if_pos h6] at hstep
    exact Except.noConfusion hstep
  rw [if_neg h6] at hstep
  by_cases h7 : t < w.raffle.endTime
  · rw [if_pos h7] at hstep
    exact Except.noConfusion hstep
  rw [if_neg h7] at hstep
  cases hv : verify_vrf_result vrf with
  | error e =>
    rw [hv, andThen_error] at hstep
    exact Except.noConfusion hstep
  | ok vrfResult =>
    rw [hv, andThen_ok] at hstep
    by_cases h8 : wk ≠ (find_program_address
        [ticketSeed, keyBytes w.raffleKey,
         u64LeBytes (get_random_winner_index vrfResult w.raffle.ticketsSold)] pid).1
    · rw [if_pos h8] at hstep
      exact Except.noConfusion hstep
    rw [if_neg h8] at hstep
    by_cases h9 : U64LIMIT ≤ setBal w.balances w.raffleKey 0 wk + w.balances w.raffleKey
    · rw [if_pos h9] at hstep
      exact Except.noConfusion hstep
    rw [if_neg h9] at hstep
    injection hstep with hstep
    exact hstep.symm

theorem complete_not_active_error (w : World) (pid : Nat) (asig : Bool) (vk : Pubkey)
    (vrf : VrfAccount) (wk : Pubkey) (t : Int)
    (hst : w.raffle.status ≠ RaffleStatus.active) :
    ∃ e, process_complete_raffle_with_vrf w pid asig vk vrf wk t = Except.error e := by
  unfold process_complete_raffle_with_vrf
  by_cases h1 : asig = false
  · rw [if_pos h1]
    exact ⟨_, rfl⟩
  rw [if_neg h1]
  by_cases h2 : w.raffleOwnedByProgram = false
  · rw [if_pos h2]
    exact ⟨_, rfl⟩
  rw [if_neg h2]
  by_cases h3 : w.raffle.isInitialized = false
  · rw [if_pos h3]
    exact ⟨_, rfl⟩
  rw [if_neg h3]
  rw [if_pos hst]
  exact ⟨_, rfl⟩

theorem reachable_inv (pid : Nat) (w : World) (h : Reachable pid w) : WorldInv pid w := by
  induction h with
  | init rk ak title ct dur cfg nonce ridx bal =>
    refine ⟨List.nodup_nil, ?_, rfl⟩
    intro kv hkv
    exact absurd hkv (List.not_mem_nil _)
  | purchase pk psig tpk trk t rent c hr hstep ih =>
    exact (purchase_ok_effects _ _ _ _ _ _ _ _ _ _ ih hstep).1
  | request ak asig vk vown psig qa sok t hr hstep ih =>
    have hs := request_ok_shape _ _ _ _ _ _ _ _ _ _ hstep
    rw [hs]
    exact ⟨ih.1, fun kv hkv => ih.2.1 kv hkv, ih.2.2⟩
  | completeVrf asig vk vrf wk t hr hstep ih =>
    have hs := complete_ok_shape _ _ _ _ _ _ _ _ hstep
    rw [hs]
    exact ⟨ih.1, fun kv hkv => ih.2.1 kv hkv, ih.2.2⟩

/-- Claim C5: for every 32-byte VRF result and every nonzero tickets_sold,
the winner index computed by `get_random_winner_index` equals the 64-bit
little-endian integer formed from the first 8 bytes of the result reduced
modulo tickets_sold, and therefore lies in `[0, tickets_sold)`. -/
theorem winner_index_le_mod (v : Fin 32 → Fin 256) (total : Nat) (h : total ≠ 0) :
    get_random_winner_index v total = leBytesU64 v % total ∧
    get_random_winner_index v total < total := by
  unfold get_random_winner_index
  rw [if_neg h, randomValue_eq_leBytesU64]
  exact ⟨rfl, Nat.mod_lt _ (Nat.pos_of_ne_zero h)⟩

/-- A sample VRF result used to witness claim C5. -/
def vrfSample : Fin 32 → Fin 256 := fun i => ⟨(i.val * 37 + 5) % 256, Nat.mod_lt _ (by norm_num)⟩

/-- Claim C5, witnessed at a concrete VRF result and 7 tickets sold. -/
theorem winner_index_le_mod_witness :
    get_random_winner_index vrfSample 7 = leBytesU64 vrfSample % 7 ∧
    get_random_winner_index vrfSample 7 < 7 :=
  winner_index_le_mod vrfSample 7 (by decide)

/-- Claim C9: with the config owned and initialized, `update_fee_percentage`
called by the current admin with a signature rejects any value above 10000
basis points with the out-of-range error and changes nothing, accepts exactly
10000, rejects a caller whose key is not the admin, and rejects a caller who
did not sign. -/
theorem update_fee_percentage_spec (cfg : Config) (cOwned : Bool) (adminKey : Pubkey)
    (asig : Bool) (nfbp : Nat)
    (howned : cOwned = true) (hinit : cfg.isInitialized = true) :
    (cfg.admin = adminKey → asig = true → 10000 < nfbp →
      process_update_fee_percentage cfg cOwned adminKey asig nfbp
        = Except.error ProgramError.invalidArgument) ∧
    (cfg.admin = adminKey → asig = true →
      process_update_fee_percentage cfg cOwned adminKey asig 10000
        = Except.ok { cfg with feeBasisPoints := 10000 }) ∧
    (cfg.admin ≠ adminKey →
      process_update_fee_percentage cfg cOwned adminKey asig nfbp
        = Except.error ProgramError.invalidAccountData) ∧
    (cfg.admin = adminKey → asig = false →
      process_update_fee_percentage cfg cOwned adminKey asig nfbp
        = Except.error ProgramError.missingRequiredSignature) := by
  subst howned
  refine ⟨?_, ?_, ?_, ?_⟩
  · intro ha hs hgt
    unfold process_update_fee_percentage
    rw [if_neg (by simp), if_neg (by simp [hinit]), if_neg (by simp [ha]),
        if_neg (by simp [hs]), if_pos hgt]
  · intro ha hs
    unfold process_update_fee_percentage
    rw [if_neg (by simp), if_neg (by simp [hinit]), if_neg (by simp [ha]),
        if_neg (by simp [hs]), if_neg (by omega)]
  · intro hne
    unfold process_update_fee_percentage
    rw [if_neg (by simp), if_neg (by simp [hinit]), if_pos hne]
  · intro ha hs
    unfold process_update_fee_percentage
    rw [if_neg (by simp), if_neg (by simp [hinit]), if_neg (by simp [ha]), if_pos hs]

/-- A sample config used to witness claim C9. -/
def cfgW : Config :=
  { isInitialized := true, admin := Pubkey.raw [9], treasury := Pubkey.raw [8],
    ticketPrice := 25000000, feeBasisPoints := 1000, nextRaffleIndex := 1 }

/-- Claim C9, witnessed at a concrete config: 10001 is rejected, 10000 is
accepted, and a non-admin caller is rejected. -/
theorem update_fee_percentage_spec_witness :
    process_update_fee_percentage cfgW true (Pubkey.raw [9]) true 10001
      = Except.error ProgramError.invalidArgument ∧
    process_update_fee_percentage cfgW true (Pubkey.raw [9]) true 10000
      = Except.ok { cfgW with feeBasisPoints := 10000 } ∧
    process_update_fee_percentage cfgW true (Pubkey.raw [7]) true 10001
      = Except.error ProgramError.invalidAccountData :=
  ⟨(update_fee_percentage_spec cfgW true (Pubkey.raw [9]) true 10001 rfl rfl).1
      rfl rfl (by omega),
   (update_fee_percentage_spec cfgW true (Pubkey.raw [9]) true 10001 rfl rfl).2.1
      rfl rfl,
   (update_fee_percentage_spec cfgW true (Pubkey.raw [7]) true 10001 rfl rfl).2.2.1
      (by decide)⟩

/-- The concrete purchase scenario of claim C1: price 1 SOL, 500 basis
points, three tickets. -/
def c1Raffle : Raffle :=
  { isInitialized := true, authority := Pubkey.raw [4], title := [],
    endTime := 100, ticketPrice := 1000000000, status := RaffleStatus.active,
    winner := defaultKey, ticketsSold := 0, feeBasisPoints := 500,
    treasury := Pubkey.raw [3], vrfAccount := defaultKey,
    vrfRequestInProgress := false, nonce := 0, raffleIndex := 1 }

/-- The world of the claim C1 scenario: a funded purchaser, an active raffle,
no allocations yet. -/
def c1World : World :=
  { raffleKey := Pubkey.raw [1], raffleOwnedByProgram := true, raffle := c1Raffle,
    store := [],
    balances := fun k => if k = Pubkey.raw [2] then 10000000000 else 0 }

/-- Claim C1: false on the code.  `calculate_fee` divides by 100, not 10000,
so on the spec scenario (3 tickets at 1 SOL, 500 basis points) it returns
15 SOL instead of the claimed 0.15 SOL, and the purchase aborts at the
checked pool subtraction because the fee exceeds the total price, instead of
succeeding with `fee_amount = 150_000_000` and `pool_amount = 2_850_000_000`. -/
theorem fee_formula_divergence :
    calculate_fee 3000000000 500 = 15000000000 ∧
    3000000000 * 500 / 10000 = 150000000 ∧
    process_purchase_tickets c1World 0 (Pubkey.raw [2]) true
      (find_program_address
        [ticketPurchaseSeed, keyBytes (Pubkey.raw [1]), keyBytes (Pubkey.raw [2])] 0).1
      (Pubkey.raw [3]) 50 5 3 = Except.error ProgramError.invalidArgument :=
  ⟨by decide, by decide, rfl⟩

/-- The purchase scenario of claim C8: one ticket priced at `2 ^ 63`
lamports with a 500 basis-point fee, so the unchecked fee multiplication
`total_price * fee_basis_points` overflows `u64`. -/
def c8Raffle : Raffle :=
  { isInitialized := true, authority := Pubkey.raw [4], title := [],
    endTime := 100, ticketPrice := 2 ^ 63, status := RaffleStatus.active,
    winner := defaultKey, ticketsSold := 0, feeBasisPoints := 500,
    treasury := Pubkey.raw [3], vrfAccount := defaultKey,
    vrfRequestInProgress := false, nonce := 0, raffleIndex := 1 }

/-- The world of the claim C8 scenario. -/
def c8World : World :=
  { raffleKey := Pubkey.raw [1], raffleOwnedByProgram := true, raffle := c8Raffle,
    store := [],
    balances := fun k => if k = Pubkey.raw [2] then 2 ^ 63 + 5 else 0 }

/-- Claim C8: false on the code.  The fee multiplication in
`utils::calculate_fee` is unchecked: at total price `2 ^ 63` and 500 basis
points the product `2 ^ 63 * 500` exceeds the `u64` range, the computed fee
wraps to 0, and the purchase succeeds instead of aborting with an arithmetic
error. -/
theorem fee_multiplication_unchecked :
    U64LIMIT ≤ 2 ^ 63 * 500 ∧
    calculate_fee (2 ^ 63) 500 = 0 ∧
    ∃ w', process_purchase_tickets c8World 0 (Pubkey.raw [2]) true
      (find_program_address
        [ticketPurchaseSeed, keyBytes (Pubkey.raw [1]), keyBytes (Pubkey.raw [2])] 0).1
      (Pubkey.raw [3]) 50 5 1 = Except.ok w' :=
  ⟨by decide, by decide, ⟨_, rfl⟩⟩

/-- The raffle of the claim C2 scenario: ended, tickets sold, and a VRF
request already in progress. -/
def c2Raffle : Raffle :=
  { isInitialized := true, authority := Pubkey.raw [4], title := [],
    endTime := 10, ticketPrice := 10, status := RaffleStatus.active,
    winner := defaultKey, ticketsSold := 3, feeBasisPoints := 500,
    treasury := Pubkey.raw [3], vrfAccount := Pubkey.raw [6],
    vrfRequestInProgress := true, nonce := 0, raffleIndex := 1 }

/-- The world of the claim C2 scenario. -/
def c2World : World :=
  { raffleKey := Pubkey.raw [1], raffleOwnedByProgram := true, raffle := c2Raffle,
    store := [], balances := fun _ => 0 }

/-- Claim C2 counterexample: with `vrf_request_in_progress` already true, a
second `request_randomness` does not fail with a state error — it succeeds
and overwrites `vrf_account`, because the handler never reads the flag. -/
theorem request_randomness_second_call_succeeds :
    c2World.raffle.vrfRequestInProgress = true ∧
    process_request_randomness c2World (Pubkey.raw [7]) true (Pubkey.raw [11]) true true
        (Pubkey.raw [7]) true 20
      = Except.ok { c2World with raffle := { c2World.raffle with
          vrfAccount := Pubkey.raw [11], vrfRequestInProgress := true } } :=
  ⟨rfl, rfl⟩

/-- Claim C2 amended: `request_randomness` has no idempotency guard — it
never reads `vrf_request_in_progress`.  A second invocation while a request
is in progress, with the checks the handler does perform satisfied and the
oracle call succeeding, succeeds again and overwrites `vrf_account`, leaving
the flag set, rather than failing with a state error. -/
theorem request_randomness_no_in_progress_guard (w : World) (ak vk qa : Pubkey) (t : Int)
    (_hflag : w.raffle.vrfRequestInProgress = true)
    (hst : w.raffle.status = RaffleStatus.active)
    (howned : w.raffleOwnedByProgram = true)
    (hinit : w.raffle.isInitialized = true)
    (htime : w.raffle.endTime ≤ t)
    (hsold : w.raffle.ticketsSold ≠ 0)
    (hqa : qa = ak) :
    process_request_randomness w ak true vk true true qa true t
      = Except.ok { w with raffle := { w.raffle with
          vrfAccount := vk, vrfRequestInProgress := true } } := by
  have hr : request_vrf_randomness true true true qa ak true = Except.ok () := by
    unfold request_vrf_randomness
    rw [if_neg (by simp), if_neg (by simp), if_neg (by simp),
        if_neg (by simp [hqa]), if_neg (by simp)]
  unfold process_request_randomness
  rw [if_neg (by simp), if_neg (by simp), if_neg (by simp [howned]),
      if_neg (by simp [hinit]), if_neg (by simp [hst]), if_neg (by omega),
      if_neg hsold, hr, andThen_ok]

/-- Claim C2 amended, witnessed at the concrete in-progress world. -/
theorem request_randomness_no_in_progress_guard_witness :
    process_request_randomness c2World (Pubkey.raw [7]) true (Pubkey.raw [11]) true true
        (Pubkey.raw [7]) true 20
      = Except.ok { c2World with raffle := { c2World.raffle with
          vrfAccount := Pubkey.raw [11], vrfRequestInProgress := true } } :=
  request_randomness_no_in_progress_guard c2World (Pubkey.raw [7]) (Pubkey.raw [11])
    (Pubkey.raw [7]) 20 rfl rfl rfl rfl (by decide) (by decide) rfl

/-- Claim C3: once a raffle's status is Complete, every further
`complete_raffle_with_vrf` fails with an error — under the signature,
ownership and initialization conditions, precisely the wrong-status error
raised before any mutation — so the winner is set and paid at most once.  An
error result leaves all state unchanged (the host discards the request's
mutations). -/
theorem complete_raffle_at_most_once (w : World) (pid : Nat) (asig : Bool)
    (vk : Pubkey) (vrf : VrfAccount) (wk : Pubkey) (t : Int)
    (hc : w.raffle.status = RaffleStatus.complete) :
    (∃ e, process_complete_raffle_with_vrf w pid asig vk vrf wk t = Except.error e) ∧
    (asig = true → w.raffleOwnedByProgram = true → w.raffle.isInitialized = true →
      process_complete_raffle_with_vrf w pid asig vk vrf wk t
        = Except.error ProgramError.invalidArgument) := by
  have hne : w.raffle.status ≠ RaffleStatus.active := by
    rw [hc]
    exact fun hx => RaffleStatus.noConfusion hx
  refine ⟨complete_not_active_error w pid asig vk vrf wk t hne, ?_⟩
  intro ha ho hi
  unfold process_complete_raffle_with_vrf
  rw [if_neg (by simp [ha]), if_neg (by simp [ho]), if_neg (by simp [hi]), if_pos hne]

/-- A completed raffle used to witness claim C3. -/
def c3World : World :=
  { raffleKey := Pubkey.raw [1], raffleOwnedByProgram := true,
    raffle := { c2Raffle with
                  status := RaffleStatus.complete,
                  winner := Pubkey.raw [9],
                  vrfRequestInProgress := false },
    store := [], balances := fun _ => 0 }

/-- A verified VRF account value used in witnesses. -/
def vrfOkSample : VrfAccount :=
  { ownedBySwitchboard := true, hasResult := true, result := fun _ => ⟨0, by norm_num⟩ }

/-- Claim C3, witnessed at a concrete completed raffle. -/
theorem complete_raffle_at_most_once_witness :
    (∃ e, process_complete_raffle_with_vrf c3World 0 true (Pubkey.raw [6]) vrfOkSample
      (Pubkey.raw [9]) 20 = Except.error e) ∧
    (true = true → c3World.raffleOwnedByProgram = true →
      c3World.raffle.isInitialized = true →
      process_complete_raffle_with_vrf c3World 0 true (Pubkey.raw [6]) vrfOkSample
        (Pubkey.raw [9]) 20 = Except.error ProgramError.invalidArgument) :=
  complete_raffle_at_most_once c3World 0 true (Pubkey.raw [6]) vrfOkSample
    (Pubkey.raw [9]) 20 rfl

/-- Claim C4: every successful `complete_raffle_with_vrf` settles in the same
request: the raffle account's entire balance is credited to the winner
account, the raffle account's balance becomes exactly 0, the raffle is marked
Complete, and every further `complete_raffle_with_vrf` on the resulting state
fails, so the transfer happens exactly once per raffle.  The winner account
is a PDA distinct from the raffle account (hypothesis `hne`). -/
theorem complete_settlement (w : World) (pid : Nat) (asig : Bool) (vk : Pubkey)
    (vrf : VrfAccount) (wk : Pubkey) (t : Int) (w' : World)
    (hne : wk ≠ w.raffleKey)
    (hstep : process_complete_raffle_with_vrf w pid asig vk vrf wk t = Except.ok w') :
    w'.balances w.raffleKey = 0 ∧
    w'.balances wk = w.balances wk + w.balances w.raffleKey ∧
    w'.raffle.status = RaffleStatus.complete ∧
    (∀ (pid2 : Nat) (asig2 : Bool) (vk2 : Pubkey) (vrf2 : VrfAccount)
      (wk2 : Pubkey) (t2 : Int),
      ∃ e, process_complete_raffle_with_vrf w' pid2 asig2 vk2 vrf2 wk2 t2
        = Except.error e) := by
  have hs := complete_ok_shape _ _ _ _ _ _ _ _ hstep
  subst hs
  refine ⟨?_, ?_, rfl, ?_⟩
  · dsimp only
    simp [setBal, Ne.symm hne]
  · dsimp only
    simp [setBal, hne]
  · intro pid2 asig2 vk2 vrf2 wk2 t2
    exact complete_not_active_error _ _ _ _ _ _ _
      (fun hx => RaffleStatus.noConfusion hx)

/-- The world of the claim C4 witness: an ended, in-progress raffle holding a
1000-lamport pool. -/
def c4World : World :=
  { raffleKey := Pubkey.raw [1], raffleOwnedByProgram := true, raffle := c2Raffle,
    store := [], balances := fun k => if k = Pubkey.raw [1] then 1000 else 0 }

/-- The winner PDA of the claim C4 witness: the all-zero VRF result selects
index 0 of the 3 tickets sold. -/
def c4Winner : Pubkey :=
  (find_program_address [ticketSeed, keyBytes (Pubkey.raw [1]), u64LeBytes 0] 0).1

/-- The state after the claim C4 witness settlement. -/
def c4Result : World :=
  { c4World with
    raffle := { c4World.raffle with
                  winner := c4Winner,
                  status := RaffleStatus.complete,
                  vrfRequestInProgress := false },
    balances := setBal (setBal c4World.balances c4World.raffleKey 0) c4Winner
      (setBal c4World.balances c4World.raffleKey 0 c4Winner
        + c4World.balances c4World.raffleKey) }

/-- Claim C4, witnessed at a concrete successful completion. -/
theorem complete_settlement_witness :
    c4Result.balances c4World.raffleKey = 0 ∧
    c4Result.balances c4Winner
      = c4World.balances c4Winner + c4World.balances c4World.raffleKey ∧
    c4Result.raffle.status = RaffleStatus.complete ∧
    (∃ e, process_complete_raffle_with_vrf c4Result 0 true (Pubkey.raw [6]) vrfOkSample
      c4Winner 20 = Except.error e) := by
  have h := complete_settlement c4World 0 true (Pubkey.raw [6]) vrfOkSample c4Winner 20
    c4Result (by decide) rfl
  exact ⟨h.1, h.2.1, h.2.2.1, h.2.2.2 0 true (Pubkey.raw [6]) vrfOkSample c4Winner 20⟩

/-- Claim C6: a successful purchase from a reachable state adds the purchased
amount to `tickets_sold`, and the sum of `ticket_count` over the raffle's
stored allocations equals `tickets_sold` both before and after — allocations
are created on first purchase and accumulated on later ones, in step with the
raffle counter. -/
theorem purchase_ticket_sum (pid : Nat) (w w' : World) (pk : Pubkey) (psig : Bool)
    (tpk trk : Pubkey) (t : Int) (rent c : Nat)
    (h : Reachable pid w)
    (hstep : process_purchase_tickets w pid pk psig tpk trk t rent c = Except.ok w') :
    w'.raffle.ticketsSold = w.raffle.ticketsSold + c ∧
    sumTicketsFor w.raffleKey w.store = w.raffle.ticketsSold ∧
    sumTicketsFor w'.raffleKey w'.store = w'.raffle.ticketsSold := by
  have hinv := reachable_inv pid w h
  have he := purchase_ok_effects _ _ _ _ _ _ _ _ _ _ hinv hstep
  exact ⟨he.2.2, hinv.2.2, he.1.2.2⟩

/-- The config of the claim C6 witness trace (price 10, no fee). -/
def cfg6 : Config :=
  { isInitialized := true, admin := Pubkey.raw [9], treasury := Pubkey.raw [8],
    ticketPrice := 10, feeBasisPoints := 0, nextRaffleIndex := 1 }

/-- The freshly created raffle world of the claim C6 witness trace. -/
def w60 : World :=
  { raffleKey := Pubkey.raw [1], raffleOwnedByProgram := true,
    raffle := initRaffle (Pubkey.raw [3]) [] 0 100 cfg6 0 1,
    store := [], balances := fun k => if k = Pubkey.raw [2] then 1000 else 0 }

/-- The allocation PDA of the claim C6 witness purchaser. -/
def tk6 : Pubkey :=
  (find_program_address
    [ticketPurchaseSeed, keyBytes (Pubkey.raw [1]), keyBytes (Pubkey.raw [2])] 0).1

/-- The world after the witness purchaser buys 2 tickets. -/
def w61 : World :=
  (process_purchase_tickets w60 0 (Pubkey.raw [2]) true tk6 (Pubkey.raw [8]) 5 7 2
    ).toOption.getD w60

/-- The world after the witness purchaser buys 3 further tickets. -/
def w62 : World :=
  (process_purchase_tickets w61 0 (Pubkey.raw [2]) true tk6 (Pubkey.raw [8]) 6 7 3
    ).toOption.getD w61

theorem reach61 : Reachable 0 w61 :=
  Reachable.purchase (Pubkey.raw [2]) true tk6 (Pubkey.raw [8]) 5 7 2
    (Reachable.init (Pubkey.raw [1]) (Pubkey.raw [3]) [] 0 100 cfg6 0 1
      (fun k => if k = Pubkey.raw [2] then 1000 else 0)) rfl

/-- Claim C6, witnessed on the 2-then-3 purchase trace: the second purchase
raises `tickets_sold` from 2 to 5, the allocation sums match on both sides,
and the single allocation record accumulates to `ticket_count = 5`. -/
theorem purchase_ticket_sum_witness :
    w62.raffle.ticketsSold = w61.raffle.ticketsSold + 3 ∧
    sumTicketsFor w61.raffleKey w61.store = w61.raffle.ticketsSold ∧
    sumTicketsFor w62.raffleKey w62.store = w62.raffle.ticketsSold ∧
    storeLookup tk6 w62.store
      = some { isInitialized := true, raffle := Pubkey.raw [1],
               purchaser := Pubkey.raw [2], ticketCount := 5, purchaseTime := 6 } := by
  have h := purchase_ticket_sum 0 w61 w62 (Pubkey.raw [2]) true tk6 (Pubkey.raw [8])
    6 7 3 reach61 rfl
  exact ⟨h.1, h.2.1, h.2.2, rfl⟩

/-- Claim C7: whenever the raffle's status is not Active or the ambient time
has reached `end_time`, `purchase_tickets` fails for every ticket count and
every caller (an error result leaves all state unchanged); when only the
deadline has passed the error is exactly the one the ended-raffle check
raises. -/
theorem purchase_rejected_inactive_or_ended (w : World) (pid : Nat) (pk : Pubkey)
    (psig : Bool) (tpk trk : Pubkey) (t : Int) (rent c : Nat)
    (h : w.raffle.status ≠ RaffleStatus.active ∨ w.raffle.endTime ≤ t) :
    (∃ e, process_purchase_tickets w pid pk psig tpk trk t rent c = Except.error e) ∧
    (c ≠ 0 → psig = true → w.raffleOwnedByProgram = true →
      w.raffle.isInitialized = true → w.raffle.status = RaffleStatus.active →
      w.raffle.endTime ≤ t →
      process_purchase_tickets w pid pk psig tpk trk t rent c
        = Except.error ProgramError.invalidArgument) := by
  constructor
  · unfold process_purchase_tickets
    by_cases h1 : c = 0
    · rw [if_pos h1]
      exact ⟨_, rfl⟩
    rw [if_neg h1]
    by_cases h2 : psig = false
    · rw [if_pos h2]
      exact ⟨_, rfl⟩
    rw [if_neg h2]
    by_cases h3 : w.raffleOwnedByProgram = false
    · rw [if_pos h3]
      exact ⟨_, rfl⟩
    rw [if_neg h3]
    by_cases h4 : w.raffle.isInitialized = false
    · rw [if_pos h4]
      exact ⟨_, rfl⟩
    rw [if_neg h4]
    by_cases h5 : w.raffle.status ≠ RaffleStatus.active
    · rw [if_pos h5]
      exact ⟨_, rfl⟩
    rw [if_neg h5]
    have h6 : w.raffle.endTime ≤ t := by
      rcases h with hL | hR
      · exact absurd hL h5
      · exact hR
    rw [if_pos h6]
    exact ⟨_, rfl⟩
  · intro hc hs ho hi hstat hend
    unfold process_purchase_tickets
    rw [if_neg hc, if_neg (by simp [hs]), if_neg (by simp [ho]),
        if_neg (by simp [hi]), if_neg (by simp [hstat]), if_pos hend]

/-- Claim C7, witnessed at the claim C1 world with the deadline passed. -/
theorem purchase_rejected_inactive_or_ended_witness :
    (∃ e, process_purchase_tickets c1World 0 (Pubkey.raw [2]) true
      (find_program_address
        [ticketPurchaseSeed, keyBytes (Pubkey.raw [1]), keyBytes (Pubkey.raw [2])] 0).1
      (Pubkey.raw [3]) 200 5 3 = Except.error e) ∧
    process_purchase_tickets c1World 0 (Pubkey.raw [2]) true
      (find_program_address
        [ticketPurchaseSeed, keyBytes (Pubkey.raw [1]), keyBytes (Pubkey.raw [2])] 0).1
      (Pubkey.raw [3]) 200 5 3 = Except.error ProgramError.invalidArgument := by
  have h := purchase_rejected_inactive_or_ended c1World 0 (Pubkey.raw [2]) true
    (find_program_address
      [ticketPurchaseSeed, keyBytes (Pubkey.raw [1]), keyBytes (Pubkey.raw [2])] 0).1
    (Pubkey.raw [3]) 200 5 3 (Or.inr (by decide))
  exact ⟨h.1, h.2 (by decide) rfl rfl rfl rfl (by decide)⟩

/-- Claim C10: the winner account accepted by `complete_raffle_with_vrf` — the
PDA with seeds `ticket`/raffle/index — differs from the `ticket_purchase` PDA
at which `purchase_tickets` creates every allocation, for every raffle, index
and purchaser; consequently at every reachable state the accepted winner
account is not one of the allocation records this program created. -/
theorem winner_pda_never_allocation (pid : Nat) (rk p : Pubkey) (idx : Nat)
    (w : World) (h : Reachable pid w) :
    (find_program_address [ticketSeed, keyBytes rk, u64LeBytes idx] pid).1
      ≠ (find_program_address [ticketPurchaseSeed, keyBytes rk, keyBytes p] pid).1 ∧
    storeLookup (find_program_address
      [ticketSeed, keyBytes w.raffleKey, u64LeBytes idx] pid).1 w.store = none := by
  have hseed : ticketSeed ≠ ticketPurchaseSeed := by decide
  constructor
  · intro hEq
    simp only [find_program_address] at hEq
    injection hEq with hs hp
    injection hs with h1 hrest
    exact hseed h1
  · have hinv := reachable_inv pid w h
    cases hlk : storeLookup (find_program_address
        [ticketSeed, keyBytes w.raffleKey, u64LeBytes idx] pid).1 w.store with
    | none => rfl
    | some td =>
      exfalso
      have hmem := storeLookup_mem _ _ _ hlk
      obtain ⟨q, hq⟩ := (hinv.2.1 _ hmem).2
      simp only [find_program_address] at hq
      injection hq with hs hp
      injection hs with h1 hrest
      exact hseed h1

/-- Claim C10, witnessed at a reachable state with one allocation record. -/
theorem winner_pda_never_allocation_witness :
    (find_program_address [ticketSeed, keyBytes (Pubkey.raw [1]), u64LeBytes 0] 0).1
      ≠ (find_program_address
          [ticketPurchaseSeed, keyBytes (Pubkey.raw [1]), keyBytes (Pubkey.raw [2])] 0).1 ∧
    storeLookup (find_program_address
      [ticketSeed, keyBytes w61.raffleKey, u64LeBytes 0] 0).1 w61.store = none :=
  winner_pda_never_allocation 0 (Pubkey.raw [1]) (Pubkey.raw [2]) 0 w61 reach61

end SolRaffle
